import Mathlib

/-!
Shallow embedding of the homework-helper backend module.

The module consists of three persisted tables (`HomeworkRequests`,
`HomeworkResponses`, `HomeworkJobs`) and a set of authenticated action
handlers (create/update/list for requests, responses and jobs).

Modelling decisions:
* Rows are Lean structures; the database is a `DB` record of row lists
  together with the next auto-increment identifier of each table.
* The authenticated-request context is `Option String` (the user id, or
  `none` when unauthenticated), mirroring `context.locals.user`.
* Timestamps are abstract `Nat` values; each handler receives the current
  time `now` and every `new Date()` inside one handler invocation is
  modelled as that same `now`.
* JSON blob columns (`attachments`, `steps`, job `input`/`output`) are
  modelled as opaque `String` payloads; nothing in the module inspects them.
* Enumerated text columns are `String`s; the zod `z.enum` membership checks
  become boolean membership predicates.
* Each action is a function `DB → Option String → Nat → Input → Except
  ErrCode (Output × DB)`.  Following the framework semantics of
  `defineAction` (astro:actions), the zod input validation runs before the
  handler body; the handler body then begins with `requireUser`.
* Handler results translate `{ success, data }` envelopes to the plain
  data; `ActionError` codes become the `ErrCode` inductive.
* `z.number().int()` identifiers are modelled as `Nat` (stored ids are
  auto-increment naturals; a negative id behaves exactly like any other
  id matching no row); `rating` is `Int` so that out-of-range values on
  both sides exist.
-/

namespace HomeworkHelper

/-- A row of the `HomeworkRequests` table. -/
structure HomeworkRequest where
  id : Nat
  userId : String
  subject : Option String := none
  gradeLevel : Option String := none
  topic : Option String := none
  title : Option String := none
  questionText : String
  attachments : Option String := none
  status : String := "open"
  createdAt : Nat
  updatedAt : Nat
  deriving DecidableEq, Repr

/-- A row of the `HomeworkResponses` table. -/
structure HomeworkResponse where
  id : Nat
  requestId : Nat
  userId : Option String := none
  source : String := "ai"
  answerText : String
  steps : Option String := none
  isAccepted : Bool := false
  rating : Option Int := none
  feedback : Option String := none
  createdAt : Nat
  deriving DecidableEq, Repr

/-- A row of the `HomeworkJobs` table. -/
structure HomeworkJob where
  id : Nat
  requestId : Option Nat := none
  userId : Option String := none
  jobType : String := "full_solution"
  input : Option String := none
  output : Option String := none
  status : String := "completed"
  createdAt : Nat
  deriving DecidableEq, Repr

/-- The database: the three tables plus each table's next auto-increment id. -/
structure DB where
  requests : List HomeworkRequest := []
  responses : List HomeworkResponse := []
  jobs : List HomeworkJob := []
  nextRequestId : Nat := 1
  nextResponseId : Nat := 1
  nextJobId : Nat := 1
  deriving DecidableEq, Repr

/-- `ActionError` codes raised by the module: `UNAUTHORIZED` from
`requireUser`, `NOT_FOUND` from the ownership / existence checks, and
`BAD_REQUEST` from the framework's zod input validation. -/
inductive ErrCode where
  | UNAUTHORIZED
  | NOT_FOUND
  | BAD_REQUEST
  deriving DecidableEq, Repr

/-- `requireUser`: extract the authenticated user from the context, raising
`UNAUTHORIZED` when none is present. -/
def requireUser (ctx : Option String) : Except ErrCode String :=
  match ctx with
  | none => Except.error ErrCode.UNAUTHORIZED
  | some u => Except.ok u

/-- `getOwnedRequest`: select the request row matching both the id and the
user id, raising `NOT_FOUND` when no such row exists. -/
def getOwnedRequest (db : DB) (requestId : Nat) (userId : String) :
    Except ErrCode HomeworkRequest :=
  match db.requests.find? (fun r => r.id == requestId && r.userId == userId) with
  | none => Except.error ErrCode.NOT_FOUND
  | some r => Except.ok r

/-- Membership in the request `status` enum `["open", "answered", "closed"]`. -/
def reqStatusOk (s : String) : Bool :=
  s == "open" || s == "answered" || s == "closed"

/-- Membership in the response `source` enum `["ai", "user", "teacher", "other"]`. -/
def sourceOk (s : String) : Bool :=
  s == "ai" || s == "user" || s == "teacher" || s == "other"

/-- Membership in the `jobType` enum. -/
def jobTypeOk (s : String) : Bool :=
  s == "explanation" || s == "step_by_step" || s == "hint_only" ||
    s == "full_solution" || s == "other"

/-- Membership in the job `status` enum `["pending", "completed", "failed"]`. -/
def jobStatusOk (s : String) : Bool :=
  s == "pending" || s == "completed" || s == "failed"

/-- The zod check `z.number().min(1).max(5).optional()` on `rating`. -/
def ratingOk : Option Int → Bool
  | none => true
  | some k => decide (1 ≤ k) && decide (k ≤ 5)

/-- Input of `createHomeworkRequest`. -/
structure CreateHomeworkRequestInput where
  subject : Option String := none
  gradeLevel : Option String := none
  topic : Option String := none
  title : Option String := none
  questionText : String
  attachments : Option String := none
  deriving DecidableEq, Repr

/-- zod validation of `createHomeworkRequest`: `questionText` has `min(1)`. -/
def CreateHomeworkRequestInput.valid (i : CreateHomeworkRequestInput) : Bool :=
  decide (1 ≤ i.questionText.length)

/-- `createHomeworkRequest`: insert a new request owned by the caller with
status `"open"` and both timestamps set to the current time. -/
def createHomeworkRequest (db : DB) (ctx : Option String) (now : Nat)
    (input : CreateHomeworkRequestInput) : Except ErrCode (HomeworkRequest × DB) :=
  if input.valid then
    match requireUser ctx with
    | Except.error e => Except.error e
    | Except.ok user =>
      let request : HomeworkRequest :=
        { id := db.nextRequestId
          userId := user
          subject := input.subject
          gradeLevel := input.gradeLevel
          topic := input.topic
          title := input.title
          questionText := input.questionText
          attachments := input.attachments
          status := "open"
          createdAt := now
          updatedAt := now }
      Except.ok (request,
        { db with
            requests := db.requests ++ [request]
            nextRequestId := db.nextRequestId + 1 })
  else Except.error ErrCode.BAD_REQUEST

/-- Input of `updateHomeworkRequest`. -/
structure UpdateHomeworkRequestInput where
  id : Nat
  subject : Option String := none
  gradeLevel : Option String := none
  topic : Option String := none
  title : Option String := none
  questionText : Option String := none
  attachments : Option String := none
  status : Option String := none
  deriving DecidableEq, Repr

/-- The `.refine` predicate: at least one mutable field is supplied. -/
def UpdateHomeworkRequestInput.hasField (i : UpdateHomeworkRequestInput) : Bool :=
  i.subject.isSome || i.gradeLevel.isSome || i.topic.isSome || i.title.isSome ||
    i.questionText.isSome || i.attachments.isSome || i.status.isSome

/-- zod validation of `updateHomeworkRequest`: the `status` enum when
supplied, and the at-least-one-field refinement. -/
def UpdateHomeworkRequestInput.valid (i : UpdateHomeworkRequestInput) : Bool :=
  (match i.status with
   | none => true
   | some s => reqStatusOk s) && i.hasField

/-- The `.set({...})` object of `updateHomeworkRequest`: each conditional
spread applies a field exactly when it was supplied; `updatedAt` is always
refreshed. -/
def applyRequestUpdate (i : UpdateHomeworkRequestInput) (now : Nat)
    (r : HomeworkRequest) : HomeworkRequest :=
  { r with
    subject := (match i.subject with | some v => some v | none => r.subject)
    gradeLevel := (match i.gradeLevel with | some v => some v | none => r.gradeLevel)
    topic := (match i.topic with | some v => some v | none => r.topic)
    title := (match i.title with | some v => some v | none => r.title)
    questionText := (match i.questionText with | some v => v | none => r.questionText)
    attachments := (match i.attachments with | some v => some v | none => r.attachments)
    status := (match i.status with | some v => v | none => r.status)
    updatedAt := now }

/-- `updateHomeworkRequest`: after the ownership check, update the row whose
id matches (the update's `where` clause is on id alone) and return the first
updated row. -/
def updateHomeworkRequest (db : DB) (ctx : Option String) (now : Nat)
    (input : UpdateHomeworkRequestInput) :
    Except ErrCode (Option HomeworkRequest × DB) :=
  if input.valid then
    match requireUser ctx with
    | Except.error e => Except.error e
    | Except.ok user =>
      match getOwnedRequest db input.id user with
      | Except.error e => Except.error e
      | Except.ok _ =>
        let requests := db.requests.map
          (fun r => if r.id == input.id then applyRequestUpdate input now r else r)
        Except.ok (requests.find? (fun r => r.id == input.id),
          { db with requests := requests })
  else Except.error ErrCode.BAD_REQUEST

/-- Input of `listHomeworkRequests` (an omitted input object is `{ status := none }`). -/
structure ListHomeworkRequestsInput where
  status : Option String := none
  deriving DecidableEq, Repr

/-- zod validation of `listHomeworkRequests`: the `status` enum when supplied. -/
def ListHomeworkRequestsInput.valid (i : ListHomeworkRequestsInput) : Bool :=
  match i.status with
  | none => true
  | some s => reqStatusOk s

/-- `listHomeworkRequests`: all requests owned by the caller, optionally
filtered by exact status; the total is the item count. -/
def listHomeworkRequests (db : DB) (ctx : Option String) (now : Nat)
    (input : ListHomeworkRequestsInput) :
    Except ErrCode ((List HomeworkRequest × Nat) × DB) :=
  if input.valid then
    match requireUser ctx with
    | Except.error e => Except.error e
    | Except.ok user =>
      let items := db.requests.filter
        (fun r => r.userId == user &&
          (match input.status with
           | none => true
           | some s => r.status == s))
      Except.ok ((items, items.length), db)
  else Except.error ErrCode.BAD_REQUEST

/-- Input of `addHomeworkResponse`. -/
structure AddHomeworkResponseInput where
  requestId : Nat
  answerText : String
  steps : Option String := none
  isAccepted : Option Bool := none
  rating : Option Int := none
  feedback : Option String := none
  source : Option String := none
  deriving DecidableEq, Repr

/-- zod validation of `addHomeworkResponse`: non-empty `answerText`, the
rating range, and the `source` enum when supplied. -/
def AddHomeworkResponseInput.valid (i : AddHomeworkResponseInput) : Bool :=
  decide (1 ≤ i.answerText.length) && ratingOk i.rating &&
    (match i.source with
     | none => true
     | some s => sourceOk s)

/-- `addHomeworkResponse`: after the ownership check, insert the response
(with source defaulting to `"ai"` and acceptance to `false`); when the input
was marked accepted, additionally set the parent request's status to
`"answered"` and refresh its `updatedAt`. -/
def addHomeworkResponse (db : DB) (ctx : Option String) (now : Nat)
    (input : AddHomeworkResponseInput) : Except ErrCode (HomeworkResponse × DB) :=
  if input.valid then
    match requireUser ctx with
    | Except.error e => Except.error e
    | Except.ok user =>
      match getOwnedRequest db input.requestId user with
      | Except.error e => Except.error e
      | Except.ok _ =>
        let response : HomeworkResponse :=
          { id := db.nextResponseId
            requestId := input.requestId
            userId := some user
            source := (match input.source with | some s => s | none => "ai")
            answerText := input.answerText
            steps := input.steps
            isAccepted := (match input.isAccepted with | some b => b | none => false)
            rating := input.rating
            feedback := input.feedback
            createdAt := now }
        let db2 : DB :=
          { db with
              responses := db.responses ++ [response]
              nextResponseId := db.nextResponseId + 1 }
        if input.isAccepted == some true then
          Except.ok (response,
            { db2 with
                requests := db2.requests.map
                  (fun r =>
                    if r.id == input.requestId then
                      { r with status := "answered", updatedAt := now }
                    else r) })
        else
          Except.ok (response, db2)
  else Except.error ErrCode.BAD_REQUEST

/-- Input of `updateHomeworkResponse`. -/
structure UpdateHomeworkResponseInput where
  id : Nat
  requestId : Nat
  isAccepted : Option Bool := none
  rating : Option Int := none
  feedback : Option String := none
  deriving DecidableEq, Repr

/-- The `.refine` predicate: at least one of the three mutable fields. -/
def UpdateHomeworkResponseInput.hasField (i : UpdateHomeworkResponseInput) : Bool :=
  i.isAccepted.isSome || i.rating.isSome || i.feedback.isSome

/-- zod validation of `updateHomeworkResponse`: the rating range and the
at-least-one-field refinement. -/
def UpdateHomeworkResponseInput.valid (i : UpdateHomeworkResponseInput) : Bool :=
  ratingOk i.rating && i.hasField

/-- The `.set({...})` object of `updateHomeworkResponse`: each conditional
spread applies a field exactly when it was supplied. -/
def applyResponseUpdate (i : UpdateHomeworkResponseInput)
    (p : HomeworkResponse) : HomeworkResponse :=
  { p with
    isAccepted := (match i.isAccepted with | some b => b | none => p.isAccepted)
    rating := (match i.rating with | some v => some v | none => p.rating)
    feedback := (match i.feedback with | some v => some v | none => p.feedback) }

/-- `updateHomeworkResponse`: after the ownership check, require a response
matching both the response id and the request id; update the row matching the
response id (the update's `where` clause is on id alone); when `isAccepted`
was supplied, additionally set the parent request's status to `"answered"` or
`"open"` accordingly and refresh its `updatedAt`. -/
def updateHomeworkResponse (db : DB) (ctx : Option String) (now : Nat)
    (input : UpdateHomeworkResponseInput) :
    Except ErrCode (Option HomeworkResponse × DB) :=
  if input.valid then
    match requireUser ctx with
    | Except.error e => Except.error e
    | Except.ok user =>
      match getOwnedRequest db input.requestId user with
      | Except.error e => Except.error e
      | Except.ok _ =>
        match db.responses.find?
            (fun p => p.id == input.id && p.requestId == input.requestId) with
        | none => Except.error ErrCode.NOT_FOUND
        | some _ =>
          let responses := db.responses.map
            (fun p => if p.id == input.id then applyResponseUpdate input p else p)
          let db2 : DB := { db with responses := responses }
          let db3 : DB :=
            match input.isAccepted with
            | none => db2
            | some b =>
              { db2 with
                  requests := db2.requests.map
                    (fun r =>
                      if r.id == input.requestId then
                        { r with
                            status := (if b then "answered" else "open")
                            updatedAt := now }
                      else r) }
          Except.ok (responses.find? (fun p => p.id == input.id), db3)
  else Except.error ErrCode.BAD_REQUEST

/-- Input of `listHomeworkResponses`. -/
structure ListHomeworkResponsesInput where
  requestId : Nat
  deriving DecidableEq, Repr

/-- `listHomeworkResponses`: after the ownership check, all responses of the
request; the total is the item count. -/
def listHomeworkResponses (db : DB) (ctx : Option String) (now : Nat)
    (input : ListHomeworkResponsesInput) :
    Except ErrCode ((List HomeworkResponse × Nat) × DB) :=
  match requireUser ctx with
  | Except.error e => Except.error e
  | Except.ok user =>
    match getOwnedRequest db input.requestId user with
    | Except.error e => Except.error e
    | Except.ok _ =>
      let items := db.responses.filter (fun p => p.requestId == input.requestId)
      Except.ok ((items, items.length), db)

/-- Input of `createHomeworkJob`. -/
structure CreateHomeworkJobInput where
  requestId : Option Nat := none
  jobType : Option String := none
  input : Option String := none
  output : Option String := none
  status : Option String := none
  deriving DecidableEq, Repr

/-- zod validation of `createHomeworkJob`: the `jobType` and `status` enums
when supplied. -/
def CreateHomeworkJobInput.valid (i : CreateHomeworkJobInput) : Bool :=
  (match i.jobType with
   | none => true
   | some s => jobTypeOk s) &&
  (match i.status with
   | none => true
   | some s => jobStatusOk s)

/-- `createHomeworkJob`: when a request id is supplied, check ownership;
insert a job with `jobType` defaulting to `"full_solution"` and status
defaulting to `"completed"`. -/
def createHomeworkJob (db : DB) (ctx : Option String) (now : Nat)
    (input : CreateHomeworkJobInput) : Except ErrCode (HomeworkJob × DB) :=
  if input.valid then
    match requireUser ctx with
    | Except.error e => Except.error e
    | Except.ok user =>
      let insertJob : Except ErrCode (HomeworkJob × DB) :=
        let job : HomeworkJob :=
          { id := db.nextJobId
            requestId := input.requestId
            userId := some user
            jobType := (match input.jobType with | some t => t | none => "full_solution")
            input := input.input
            output := input.output
            status := (match input.status with | some s => s | none => "completed")
            createdAt := now }
        Except.ok (job,
          { db with
              jobs := db.jobs ++ [job]
              nextJobId := db.nextJobId + 1 })
      match input.requestId with
      | none => insertJob
      | some rid =>
        match getOwnedRequest db rid user with
        | Except.error e => Except.error e
        | Except.ok _ => insertJob
  else Except.error ErrCode.BAD_REQUEST

/-- Input of `listHomeworkJobs` (an omitted input object is `{ requestId := none }`). -/
structure ListHomeworkJobsInput where
  requestId : Option Nat := none
  deriving DecidableEq, Repr

/-- `listHomeworkJobs`: all jobs whose `userId` is the caller, optionally
filtered by exact parent request id; the total is the item count. -/
def listHomeworkJobs (db : DB) (ctx : Option String) (now : Nat)
    (input : ListHomeworkJobsInput) :
    Except ErrCode ((List HomeworkJob × Nat) × DB) :=
  match requireUser ctx with
  | Except.error e => Except.error e
  | Except.ok user =>
    let items := db.jobs.filter
      (fun j => j.userId == some user &&
        (match input.requestId with
         | none => true
         | some rid => j.requestId == some rid))
    Except.ok ((items, items.length), db)


/-- A sample request row (id 1, owned by `"alice"`) used to instantiate the
theorems below on concrete inputs. -/
def sampleRequest : HomeworkRequest :=
  { id := 1, userId := "alice", questionText := "q", createdAt := 0, updatedAt := 0 }

/-- A sample database holding just `sampleRequest`. -/
def sampleDb : DB := { requests := [sampleRequest], nextRequestId := 2 }

/-- A sample accepted response attached to `sampleRequest`. -/
def sampleResponse : HomeworkResponse :=
  { id := 1, requestId := 1, userId := some "alice", answerText := "x",
    isAccepted := true, createdAt := 0 }

/-- A sample database holding `sampleRequest` and `sampleResponse`. -/
def sampleDb2 : DB :=
  { requests := [sampleRequest], responses := [sampleResponse],
    nextRequestId := 2, nextResponseId := 2 }

/-- A second request of the same owner, with no responses of its own. -/
def sampleRequestB : HomeworkRequest :=
  { id := 2, userId := "alice", questionText := "q2", createdAt := 0, updatedAt := 0 }

/-- A sample database where response 1 belongs to request 1, not request 2. -/
def sampleDb3 : DB :=
  { requests := [sampleRequest, sampleRequestB], responses := [sampleResponse],
    nextRequestId := 3, nextResponseId := 2 }

/-- The response produced by accepting an answer on `sampleDb` at time 7. -/
def respW1 : HomeworkResponse :=
  { id := 1, requestId := 1, userId := some "alice", answerText := "x",
    isAccepted := true, createdAt := 7 }

/-- The database state after that accepted insert. -/
def dbW1 : DB :=
  { requests := [{ sampleRequest with status := "answered", updatedAt := 7 }],
    responses := [respW1], nextRequestId := 2, nextResponseId := 2 }

/-- `sampleResponse` after explicitly un-accepting it. -/
def respW2 : HomeworkResponse := { sampleResponse with isAccepted := false }

/-- The database state after un-accepting `sampleResponse` at time 9. -/
def dbW2 : DB :=
  { requests := [{ sampleRequest with status := "open", updatedAt := 9 }],
    responses := [respW2], nextRequestId := 2, nextResponseId := 2 }

/-- `sampleRequest` after a partial update supplying only the title at time 4. -/
def reqW4 : HomeworkRequest := { sampleRequest with title := some "t", updatedAt := 4 }

/-- The database state after that partial update. -/
def dbW4 : DB := { requests := [reqW4], nextRequestId := 2 }

/-- The job created on `sampleDb` at time 5 with every input field omitted. -/
def jobW : HomeworkJob := { id := 1, userId := some "alice", createdAt := 5 }

/-- The database state after creating `jobW`. -/
def dbW9 : DB :=
  { requests := [sampleRequest], jobs := [jobW], nextRequestId := 2, nextJobId := 2 }

end HomeworkHelper

namespace HomeworkHelper

/-- If the requests table contains no row matching both the id and the user,
`getOwnedRequest` raises `NOT_FOUND` — the same error whether the id is bogus
or the row belongs to someone else. -/
theorem getOwnedRequest_eq_notFound (db : DB) (rid : Nat) (u : String)
    (hno : ∀ r ∈ db.requests, ¬ (r.id = rid ∧ r.userId = u)) :
    getOwnedRequest db rid u = Except.error ErrCode.NOT_FOUND := by
  unfold getOwnedRequest
  have hfind : db.requests.find? (fun r => r.id == rid && r.userId == u) = none := by
    rw [List.find?_eq_none]
    intro r hr
    simpa using hno r hr
  rw [hfind]

/-- C1: a successful `addHomeworkResponse` inserts the response with the
requested acceptance flag (defaulting to `false`); when `isAccepted` is
`some true` the parent request row's status becomes `"answered"` with
`updatedAt` refreshed to `now`, and when `isAccepted` is omitted or `false`
the requests table is unchanged. -/
theorem addHomeworkResponse_acceptance (db : DB) (u : String) (now : Nat)
    (input : AddHomeworkResponseInput) (resp : HomeworkResponse) (db' : DB)
    (h : addHomeworkResponse db (some u) now input = Except.ok (resp, db')) :
    resp.isAccepted = (match input.isAccepted with | some b => b | none => false) ∧
    db'.responses = db.responses ++ [resp] ∧
    (input.isAccepted = some true →
      resp.isAccepted = true ∧
      db'.requests = db.requests.map
        (fun r => if r.id == input.requestId then
            { r with status := "answered", updatedAt := now } else r)) ∧
    (input.isAccepted ≠ some true → db'.requests = db.requests) := by
  unfold addHomeworkResponse at h
  split at h
  · simp only [requireUser] at h
    split at h
    · exact absurd h (by simp)
    · split at h
      · next hacc =>
          simp only [Except.ok.injEq, Prod.mk.injEq] at h
          obtain ⟨hr, hdb⟩ := h
          subst hr hdb
          simp only [beq_iff_eq] at hacc
          refine ⟨by simp [hacc], rfl, ?_, ?_⟩
          · intro hsome
            exact ⟨by simp [hsome], rfl⟩
          · intro hne
            exact absurd hacc hne
      · next hacc =>
          simp only [Except.ok.injEq, Prod.mk.injEq] at h
          obtain ⟨hr, hdb⟩ := h
          subst hr hdb
          have hne : input.isAccepted ≠ some true := by simpa using hacc
          refine ⟨rfl, rfl, fun hsome => absurd hsome hne, fun _ => rfl⟩
  · exact absurd h (by simp)

/-- C2: a successful `updateHomeworkResponse` with `isAccepted` explicitly
supplied sets the parent request row's status to `"answered"` (for `true`) or
`"open"` (for `false`) with `updatedAt` refreshed, for any database state
(hence regardless of other responses' acceptance); with `isAccepted` omitted
the requests table is unchanged. -/
theorem updateHomeworkResponse_parent_status (db : DB) (u : String) (now : Nat)
    (input : UpdateHomeworkResponseInput) (ret : Option HomeworkResponse) (db' : DB)
    (h : updateHomeworkResponse db (some u) now input = Except.ok (ret, db')) :
    (∀ b, input.isAccepted = some b →
      db'.requests = db.requests.map
        (fun r => if r.id == input.requestId then
            { r with status := (if b then "answered" else "open"), updatedAt := now }
          else r)) ∧
    (input.isAccepted = none → db'.requests = db.requests) := by
  unfold updateHomeworkResponse at h
  split at h
  · simp only [requireUser] at h
    split at h
    · exact absurd h (by simp)
    · split at h
      · exact absurd h (by simp)
      · simp only [Except.ok.injEq, Prod.mk.injEq] at h
        obtain ⟨hr, hdb⟩ := h
        subst hdb
        cases hacc : input.isAccepted with
        | none =>
          exact ⟨fun b hb => (nomatch hb), fun _ => rfl⟩
        | some b =>
          refine ⟨fun b' hb' => ?_, fun hn => (nomatch hn)⟩
          injection hb' with hbb
          subst hbb
          rfl
  · exact absurd h (by simp)

/-- C3: when no request row matches both the given id and the calling user
(the id is bogus, or the row belongs to another user), every operation that
takes a request id fails with the same `NOT_FOUND` error and returns no data. -/
theorem ownership_isolation (db : DB) (u : String) (now : Nat) (rid : Nat)
    (hno : ∀ r ∈ db.requests, ¬ (r.id = rid ∧ r.userId = u)) :
    (∀ i : UpdateHomeworkRequestInput, i.valid = true → i.id = rid →
      updateHomeworkRequest db (some u) now i = Except.error ErrCode.NOT_FOUND) ∧
    (∀ i : AddHomeworkResponseInput, i.valid = true → i.requestId = rid →
      addHomeworkResponse db (some u) now i = Except.error ErrCode.NOT_FOUND) ∧
    (∀ i : UpdateHomeworkResponseInput, i.valid = true → i.requestId = rid →
      updateHomeworkResponse db (some u) now i = Except.error ErrCode.NOT_FOUND) ∧
    (∀ i : ListHomeworkResponsesInput, i.requestId = rid →
      listHomeworkResponses db (some u) now i = Except.error ErrCode.NOT_FOUND) ∧
    (∀ i : CreateHomeworkJobInput, i.valid = true → i.requestId = some rid →
      createHomeworkJob db (some u) now i = Except.error ErrCode.NOT_FOUND) := by
  have hg := getOwnedRequest_eq_notFound db rid u hno
  refine ⟨?_, ?_, ?_, ?_, ?_⟩
  · intro i hv hid
    subst hid
    simp [updateHomeworkRequest, hv, requireUser, hg]
  · intro i hv hid
    subst hid
    simp [addHomeworkResponse, hv, requireUser, hg]
  · intro i hv hid
    subst hid
    simp [updateHomeworkResponse, hv, requireUser, hg]
  · intro i hid
    subst hid
    simp [listHomeworkResponses, requireUser, hg]
  · intro i hv hid
    simp [createHomeworkJob, hv, requireUser, hid, hg]

/-- C4: `updateHomeworkRequest` rejects an input with no mutable field; a
successful call leaves the other tables untouched and rewrites exactly the
rows matching the id, applying each supplied field, keeping every omitted
field at its previous value, refreshing `updatedAt`, and returning the
(first) updated row. -/
theorem updateHomeworkRequest_frame (db : DB) (now : Nat)
    (input : UpdateHomeworkRequestInput) :
    (input.hasField = false → ∀ ctx,
      updateHomeworkRequest db ctx now input = Except.error ErrCode.BAD_REQUEST) ∧
    (∀ u ret db', updateHomeworkRequest db (some u) now input = Except.ok (ret, db') →
      db'.responses = db.responses ∧
      db'.jobs = db.jobs ∧
      db'.requests = db.requests.map
        (fun r =>
          if r.id == input.id then
            { r with
                subject := (match input.subject with | some v => some v | none => r.subject)
                gradeLevel := (match input.gradeLevel with | some v => some v | none => r.gradeLevel)
                topic := (match input.topic with | some v => some v | none => r.topic)
                title := (match input.title with | some v => some v | none => r.title)
                questionText := (match input.questionText with | some v => v | none => r.questionText)
                attachments := (match input.attachments with | some v => some v | none => r.attachments)
                status := (match input.status with | some v => v | none => r.status)
                updatedAt := now }
          else r) ∧
      ret = db'.requests.find? (fun r => r.id == input.id)) := by
  constructor
  · intro hf ctx
    simp [updateHomeworkRequest, UpdateHomeworkRequestInput.valid, hf]
  · intro u ret db' h
    unfold updateHomeworkRequest at h
    split at h
    · simp only [requireUser] at h
      split at h
      · exact absurd h (by simp)
      · simp only [Except.ok.injEq, Prod.mk.injEq] at h
        obtain ⟨hr, hdb⟩ := h
        subst hdb
        exact ⟨rfl, rfl, rfl, hr.symm⟩
    · exact absurd h (by simp)

/-- C5: `createHomeworkRequest` rejects an empty question text; a successful
call appends exactly one row, with status `"open"`, `createdAt` equal to
`updatedAt` (both the current time), and returns that row. -/
theorem createHomeworkRequest_spec (db : DB) (ctx : Option String) (now : Nat)
    (input : CreateHomeworkRequestInput) :
    (input.questionText = "" →
      createHomeworkRequest db ctx now input = Except.error ErrCode.BAD_REQUEST) ∧
    (∀ req db', createHomeworkRequest db ctx now input = Except.ok (req, db') →
      req.status = "open" ∧ req.createdAt = now ∧ req.updatedAt = now ∧
      req.createdAt = req.updatedAt ∧
      req.questionText = input.questionText ∧
      db'.requests = db.requests ++ [req] ∧
      db'.responses = db.responses ∧ db'.jobs = db.jobs) := by
  constructor
  · intro hqt
    simp [createHomeworkRequest, CreateHomeworkRequestInput.valid, hqt]
  · intro req db' h
    unfold createHomeworkRequest at h
    split at h
    · split at h
      · exact absurd h (by simp)
      · simp only [Except.ok.injEq, Prod.mk.injEq] at h
        obtain ⟨hr, hdb⟩ := h
        subst hr hdb
        exact ⟨rfl, rfl, rfl, rfl, rfl, rfl, rfl, rfl⟩
    · exact absurd h (by simp)

/-- C6 counterexample: an unauthenticated `updateHomeworkRequest` call whose
input supplies no mutable field fails with the validation error
`BAD_REQUEST`, not `UNAUTHORIZED` — the framework's input validation runs
before the handler's authentication check. -/
theorem validation_precedes_unauthorized :
    updateHomeworkRequest ({} : DB) none 0 { id := 1 } = Except.error ErrCode.BAD_REQUEST ∧
    (Except.error ErrCode.BAD_REQUEST : Except ErrCode (Option HomeworkRequest × DB)) ≠
      Except.error ErrCode.UNAUTHORIZED := by
  exact ⟨rfl, by simp⟩

/-- C6 amended: for every operation whose input passes validation, an
unauthenticated call fails with `UNAUTHORIZED`, for any database state — so
the authentication check precedes every ownership check and database access
(though not the framework's input validation). -/
theorem unauthorized_before_db (db : DB) (now : Nat) :
    (∀ i : CreateHomeworkRequestInput, i.valid = true →
      createHomeworkRequest db none now i = Except.error ErrCode.UNAUTHORIZED) ∧
    (∀ i : UpdateHomeworkRequestInput, i.valid = true →
      updateHomeworkRequest db none now i = Except.error ErrCode.UNAUTHORIZED) ∧
    (∀ i : ListHomeworkRequestsInput, i.valid = true →
      listHomeworkRequests db none now i = Except.error ErrCode.UNAUTHORIZED) ∧
    (∀ i : AddHomeworkResponseInput, i.valid = true →
      addHomeworkResponse db none now i = Except.error ErrCode.UNAUTHORIZED) ∧
    (∀ i : UpdateHomeworkResponseInput, i.valid = true →
      updateHomeworkResponse db none now i = Except.error ErrCode.UNAUTHORIZED) ∧
    (∀ i : ListHomeworkResponsesInput,
      listHomeworkResponses db none now i = Except.error ErrCode.UNAUTHORIZED) ∧
    (∀ i : CreateHomeworkJobInput, i.valid = true →
      createHomeworkJob db none now i = Except.error ErrCode.UNAUTHORIZED) ∧
    (∀ i : ListHomeworkJobsInput,
      listHomeworkJobs db none now i = Except.error ErrCode.UNAUTHORIZED) := by
  refine ⟨?_, ?_, ?_, ?_, ?_, ?_, ?_, ?_⟩
  · intro i hv; simp [createHomeworkRequest, hv, requireUser]
  · intro i hv; simp [updateHomeworkRequest, hv, requireUser]
  · intro i hv; simp [listHomeworkRequests, hv, requireUser]
  · intro i hv; simp [addHomeworkResponse, hv, requireUser]
  · intro i hv; simp [updateHomeworkResponse, hv, requireUser]
  · intro i; simp [listHomeworkResponses, requireUser]
  · intro i hv; simp [createHomeworkJob, hv, requireUser]
  · intro i; simp [listHomeworkJobs, requireUser]

/-- C7: when the caller owns the request named by `requestId` but no response
row matches both the response id and that request id (in particular when the
response id exists only under a different request), `updateHomeworkResponse`
fails with `NOT_FOUND` and modifies nothing. -/
theorem updateHomeworkResponse_crossRequest_notFound (db : DB) (u : String) (now : Nat)
    (input : UpdateHomeworkResponseInput)
    (hv : input.valid = true)
    (hown : ∃ r ∈ db.requests, r.id = input.requestId ∧ r.userId = u)
    (hno : ∀ p ∈ db.responses, ¬ (p.id = input.id ∧ p.requestId = input.requestId)) :
    updateHomeworkResponse db (some u) now input = Except.error ErrCode.NOT_FOUND := by
  have hsome : (db.requests.find?
      (fun r => r.id == input.requestId && r.userId == u)).isSome := by
    rw [List.find?_isSome]
    obtain ⟨r0, hr0, hid, hu⟩ := hown
    exact ⟨r0, hr0, by simp [hid, hu]⟩
  obtain ⟨rf, hrf⟩ := Option.isSome_iff_exists.mp hsome
  have hgor : getOwnedRequest db input.requestId u = Except.ok rf := by
    unfold getOwnedRequest
    rw [hrf]
  have hfind : db.responses.find?
      (fun p => p.id == input.id && p.requestId == input.requestId) = none := by
    rw [List.find?_eq_none]
    intro p hp
    simpa using hno p hp
  simp [updateHomeworkResponse, hv, requireUser, hgor, hfind]

/-- C8: a supplied rating outside `[1, 5]` makes both response operations
fail with the validation error for every database, context and time (so
before any authentication, ownership check or database access), while any
rating inside `[1, 5]` passes the rating check. -/
theorem rating_out_of_range_rejected (k : Int) (hk : k < 1 ∨ 5 < k) :
    (∀ (db : DB) (ctx : Option String) (now : Nat) (i : AddHomeworkResponseInput),
      i.rating = some k →
      addHomeworkResponse db ctx now i = Except.error ErrCode.BAD_REQUEST) ∧
    (∀ (db : DB) (ctx : Option String) (now : Nat) (i : UpdateHomeworkResponseInput),
      i.rating = some k →
      updateHomeworkResponse db ctx now i = Except.error ErrCode.BAD_REQUEST) ∧
    (∀ m : Int, 1 ≤ m → m ≤ 5 → ratingOk (some m) = true) := by
  have hro : ratingOk (some k) = false := by
    simp only [ratingOk, Bool.and_eq_false_iff, decide_eq_false_iff_not]
    omega
  refine ⟨?_, ?_, ?_⟩
  · intro db ctx now i hir
    have hv : i.valid = false := by
      simp [AddHomeworkResponseInput.valid, hir, hro]
    simp [addHomeworkResponse, hv]
  · intro db ctx now i hir
    have hv : i.valid = false := by
      simp [UpdateHomeworkResponseInput.valid, hir, hro]
    simp [updateHomeworkResponse, hv]
  · intro m h1 h5
    simp [ratingOk, h1, h5]

/-- C9: `createHomeworkJob` fails with `NOT_FOUND` when the supplied request
id is not owned by the caller (and inserts nothing); with the request id
omitted it succeeds with no ownership check; every created job defaults
`jobType` to `"full_solution"` and status to `"completed"` when these are
omitted, is appended to the jobs table, and is returned. -/
theorem createHomeworkJob_defaults (db : DB) (u : String) (now : Nat)
    (input : CreateHomeworkJobInput) :
    (∀ rid, input.requestId = some rid → input.valid = true →
      (∀ r ∈ db.requests, ¬ (r.id = rid ∧ r.userId = u)) →
      createHomeworkJob db (some u) now input = Except.error ErrCode.NOT_FOUND) ∧
    (input.requestId = none → input.valid = true →
      ∃ job db', createHomeworkJob db (some u) now input = Except.ok (job, db')) ∧
    (∀ job db', createHomeworkJob db (some u) now input = Except.ok (job, db') →
      (input.jobType = none → job.jobType = "full_solution") ∧
      (input.status = none → job.status = "completed") ∧
      db'.jobs = db.jobs ++ [job]) := by
  refine ⟨?_, ?_, ?_⟩
  · intro rid hid hv hno
    have hg := getOwnedRequest_eq_notFound db rid u hno
    simp [createHomeworkJob, hv, requireUser, hid, hg]
  · intro hid hv
    simp [createHomeworkJob, hv, requireUser, hid]
  · intro job db' h
    unfold createHomeworkJob at h
    split at h
    · simp only [requireUser] at h
      split at h
      · simp only [Except.ok.injEq, Prod.mk.injEq] at h
        obtain ⟨hj, hdb⟩ := h
        subst hj hdb
        refine ⟨fun hjt => by simp [hjt], fun hst => by simp [hst], rfl⟩
      · split at h
        · exact absurd h (by simp)
        · simp only [Except.ok.injEq, Prod.mk.injEq] at h
          obtain ⟨hj, hdb⟩ := h
          subst hj hdb
          refine ⟨fun hjt => by simp [hjt], fun hst => by simp [hst], rfl⟩
    · exact absurd h (by simp)

/-- C10: non-empty question text is not an invariant — `updateHomeworkRequest`
validates an input whose `questionText` is the empty string, and the sequence
create-then-update-with-empty-text leaves a stored request row with empty
question text. -/
theorem emptyQuestionText_reachable :
    ∃ req1 db1 ret db2,
      createHomeworkRequest {} (some "alice") 0 { questionText := "What?" } =
        Except.ok (req1, db1) ∧
      UpdateHomeworkRequestInput.valid { id := req1.id, questionText := some "" } = true ∧
      updateHomeworkRequest db1 (some "alice") 1
        { id := req1.id, questionText := some "" } = Except.ok (ret, db2) ∧
      ∃ r ∈ db2.requests, r.questionText = "" := by
  refine ⟨_, _, _, _, rfl, rfl, rfl, ?_⟩
  refine ⟨_, List.mem_cons_self _ _, rfl⟩

end HomeworkHelper

namespace HomeworkHelper

/-- Witness for C1: accepting a response on the sample database marks the
parent request answered. -/
theorem addHomeworkResponse_acceptance_witness :
    addHomeworkResponse sampleDb (some "alice") 7
      { requestId := 1, answerText := "x", isAccepted := some true } =
      Except.ok (respW1, dbW1) ∧
    (respW1.isAccepted = true ∧
      dbW1.requests = sampleDb.requests.map
        (fun r => if r.id == 1 then
            { r with status := "answered", updatedAt := 7 } else r)) :=
  ⟨rfl,
    (addHomeworkResponse_acceptance sampleDb "alice" 7
      { requestId := 1, answerText := "x", isAccepted := some true }
      respW1 dbW1 rfl).2.2.1 rfl⟩

/-- Witness for C2: explicitly un-accepting the only accepted response
reverts the parent request to open. -/
theorem updateHomeworkResponse_parent_status_witness :
    updateHomeworkResponse sampleDb2 (some "alice") 9
      { id := 1, requestId := 1, isAccepted := some false } =
      Except.ok (some respW2, dbW2) ∧
    dbW2.requests = sampleDb2.requests.map
      (fun r => if r.id == 1 then
          { r with status := "open", updatedAt := 9 } else r) :=
  ⟨rfl,
    (updateHomeworkResponse_parent_status sampleDb2 "alice" 9
      { id := 1, requestId := 1, isAccepted := some false }
      (some respW2) dbW2 rfl).1 false rfl⟩

/-- Witness for C3: user `"bob"` adding a response to `"alice"`'s request
receives `NOT_FOUND`. -/
theorem ownership_isolation_witness :
    (∀ r ∈ sampleDb.requests, ¬ (r.id = 1 ∧ r.userId = "bob")) ∧
    addHomeworkResponse sampleDb (some "bob") 3 { requestId := 1, answerText := "x" } =
      Except.error ErrCode.NOT_FOUND :=
  ⟨by decide,
    (ownership_isolation sampleDb "bob" 3 1 (by decide)).2.1
      { requestId := 1, answerText := "x" } (by decide) rfl⟩

/-- Witness for C4: updating only the title changes only the title and
`updatedAt` of the matching row. -/
theorem updateHomeworkRequest_frame_witness :
    updateHomeworkRequest sampleDb (some "alice") 4 { id := 1, title := some "t" } =
      Except.ok (some reqW4, dbW4) ∧
    (dbW4.responses = sampleDb.responses ∧
      dbW4.jobs = sampleDb.jobs ∧
      dbW4.requests = sampleDb.requests.map
        (fun r => if r.id == 1 then
            { r with title := some "t", updatedAt := 4 } else r) ∧
      some reqW4 = dbW4.requests.find? (fun r => r.id == 1)) :=
  ⟨rfl,
    (updateHomeworkRequest_frame sampleDb 4 { id := 1, title := some "t" }).2
      "alice" (some reqW4) dbW4 rfl⟩

/-- Witness for C5: creating a request on the empty database produces an
open request with equal timestamps. -/
theorem createHomeworkRequest_spec_witness :
    createHomeworkRequest ({} : DB) (some "alice") 0 { questionText := "q" } =
      Except.ok (sampleRequest, sampleDb) ∧
    (sampleRequest.status = "open" ∧ sampleRequest.createdAt = 0 ∧
      sampleRequest.updatedAt = 0 ∧
      sampleRequest.createdAt = sampleRequest.updatedAt ∧
      sampleRequest.questionText = "q" ∧
      sampleDb.requests = ({} : DB).requests ++ [sampleRequest] ∧
      sampleDb.responses = ({} : DB).responses ∧ sampleDb.jobs = ({} : DB).jobs) :=
  ⟨rfl,
    (createHomeworkRequest_spec {} (some "alice") 0 { questionText := "q" }).2
      sampleRequest sampleDb rfl⟩

/-- Witness for C6 (amended): an unauthenticated create with valid input is
rejected with `UNAUTHORIZED`. -/
theorem unauthorized_before_db_witness :
    ({ questionText := "q" } : CreateHomeworkRequestInput).valid = true ∧
    createHomeworkRequest sampleDb none 0 { questionText := "q" } =
      Except.error ErrCode.UNAUTHORIZED :=
  ⟨by decide,
    (unauthorized_before_db sampleDb 0).1 { questionText := "q" } (by decide)⟩

/-- Witness for C7: response 1 exists under request 1, so updating it via
request 2 (also owned by the caller) yields `NOT_FOUND`. -/
theorem updateHomeworkResponse_crossRequest_notFound_witness :
    ({ id := 1, requestId := 2, feedback := some "f" } : UpdateHomeworkResponseInput).valid = true ∧
    (∃ r ∈ sampleDb3.requests, r.id = 2 ∧ r.userId = "alice") ∧
    (∀ p ∈ sampleDb3.responses, ¬ (p.id = 1 ∧ p.requestId = 2)) ∧
    updateHomeworkResponse sampleDb3 (some "alice") 3
      { id := 1, requestId := 2, feedback := some "f" } =
      Except.error ErrCode.NOT_FOUND :=
  ⟨by decide, by decide, by decide,
    updateHomeworkResponse_crossRequest_notFound sampleDb3 "alice" 3
      { id := 1, requestId := 2, feedback := some "f" }
      (by decide) (by decide) (by decide)⟩

/-- Witness for C8: a rating of 6 is rejected with the validation error. -/
theorem rating_out_of_range_rejected_witness :
    ((6 : Int) < 1 ∨ (5 : Int) < 6) ∧
    addHomeworkResponse sampleDb (some "alice") 2
      { requestId := 1, answerText := "x", rating := some 6 } =
      Except.error ErrCode.BAD_REQUEST :=
  ⟨by decide,
    (rating_out_of_range_rejected 6 (by decide)).1 sampleDb (some "alice") 2
      { requestId := 1, answerText := "x", rating := some 6 } rfl⟩

/-- Witness for C9: creating a job with every field omitted succeeds and
takes both defaults. -/
theorem createHomeworkJob_defaults_witness :
    createHomeworkJob sampleDb (some "alice") 5 ({} : CreateHomeworkJobInput) =
      Except.ok (jobW, dbW9) ∧
    (jobW.jobType = "full_solution" ∧ jobW.status = "completed" ∧
      dbW9.jobs = sampleDb.jobs ++ [jobW]) :=
  ⟨rfl, by
    have h := (createHomeworkJob_defaults sampleDb "alice" 5 {}).2.2 jobW dbW9 rfl
    exact ⟨h.1 rfl, h.2.1 rfl, h.2.2⟩⟩

end HomeworkHelper
